import Mathlib

/-!
Verification development for the head-pose focus-classification service
(`src/main.py`): a shallow embedding of `process_frame` and of the
per-connection session loop in `websocket_endpoint`, together with proofs
about its calibration and classification behaviour.

Modelling conventions:
* Angle values (pitch, yaw, roll, in degrees) are modelled by `ℚ`.
* External, numerically opaque collaborators (base64 decoding, `cv2.imdecode`,
  the MediaPipe face-mesh landmark provider, and the whole
  `solvePnP`/`Rodrigues`/`RQDecomp3x3` pipeline) are abstracted into an
  environment of oracles: each frame either fails at one of those stages or
  yields a pose triple.  Images, byte buffers and landmark sets are opaque
  handles (`ℕ` / `List ℕ`).
* A Python value returned by `process_frame` is a `PyValue`: a status string,
  a `(pitch, yaw, roll)` tuple, or `None` (the fall-through return when
  `cv2.solvePnP` reports no convergence).
* The session counter `calibration_frames` is an integer (Python `int`), so
  nonnegativity is a proved property, not a typing artefact.
* An uncaught Python exception in the loop body (e.g. `TypeError` when
  unpacking `None`, or when subscripting a `None` stored in
  `calibration_angles`) is modelled by `StepResult.crash`: the session
  terminates without emitting a status for that frame.
-/

/-- A Python value that `process_frame` can return: a status string, a
`(pitch, yaw, roll)` tuple, or `None`. -/
inductive PyValue where
  | str (s : String)
  | triple (p y r : ℚ)
  | none
deriving DecidableEq

/-- Oracles for the external collaborators used by `process_frame`.
`b64decode` models `base64.b64decode` (exception text on failure),
`imdecode` models `cv2.imdecode` (`None` on failure), `faceLandmarks`
models `face_mesh.process` (`None` when `multi_face_landmarks` is empty),
and `solvePnP` collapses `cv2.solvePnP` + `Rodrigues` + `RQDecomp3x3` into
`None` when the solver reports failure, else the Euler angle triple. -/
structure Env where
  b64decode : String → Except String (List ℕ)
  imdecode : List ℕ → Option ℕ
  faceLandmarks : ℕ → Option ℕ
  solvePnP : ℕ → Option (ℚ × ℚ × ℚ)

/-- Split a character list at the first `','`, as Python's
`str.split(",", 1)`: `some (before, after)` when a comma occurs, `none`
otherwise (in which case the two-variable unpacking in the source raises
`ValueError`). -/
def splitFirst : List Char → Option (List Char × List Char)
  | [] => Option.none
  | c :: rest =>
    if c = ',' then some ([], rest)
    else
      match splitFirst rest with
      | some (a, b) => some (c :: a, b)
      | Option.none => Option.none

/-- Lines 36-37 of `main.py`: if the payload starts with `"data:"` (Python
`str.startswith`, modelled character-by-character on `String.data`), strip
everything up to and including the first comma; a `"data:"` payload without
a comma makes the unpacking raise `ValueError` (caught by the surrounding
`try`). Any other payload passes through unchanged. -/
def stripped_input (image_data : String) : Except String String :=
  if "data:".data.isPrefixOf image_data.data then
    match splitFirst image_data.data with
    | some (_, rest) => Except.ok (String.mk rest)
    | Option.none => Except.error "not enough values to unpack (expected 2, got 1)"
  else Except.ok image_data

/-- Lines 35-40 of `main.py`: the `try` block around prefix stripping and
`base64.b64decode`; any exception is turned into the
`"Error: Decoding Base64 failed - ..."` text. -/
def b64_stage (env : Env) (image_data : String) : Except String (List ℕ) :=
  match stripped_input image_data with
  | Except.error e => Except.error ("Error: Decoding Base64 failed - " ++ e)
  | Except.ok data =>
    match env.b64decode data with
    | Except.error e => Except.error ("Error: Decoding Base64 failed - " ++ e)
    | Except.ok img_bytes => Except.ok img_bytes

/-- `process_frame` (lines 31-106 of `main.py`): base64 decode, image
decode, landmark detection, PnP solve. Note the missing-return path: when
`solvePnP`'s success flag is false the `for` body completes without
returning, and the function falls off the end returning Python `None`. -/
def process_frame (env : Env) (image_data : String) : PyValue :=
  match b64_stage env image_data with
  | Except.error msg => PyValue.str msg
  | Except.ok img_bytes =>
    match env.imdecode img_bytes with
    | Option.none => PyValue.str "Error: Invalid frame"
    | some frame =>
      match env.faceLandmarks frame with
      | Option.none => PyValue.str "Pose Not Detected"
      | some lms =>
        match env.solvePnP lms with
        | Option.none => PyValue.none
        | some (p, y, r) => PyValue.triple p y r

/-- Per-connection state of `websocket_endpoint`: the
`calibration_frames` counter, the `calibration_angles` list (whose
entries are whatever non-string values `process_frame` returned — possibly
Python `None`), and the baseline variables once assigned. -/
structure SessionState where
  calibration_frames : ℤ
  calibration_angles : List (Option (ℚ × ℚ × ℚ))
  baseline : Option (ℚ × ℚ × ℚ)
deriving DecidableEq

/-- State at `await websocket.accept()`: lines 122-123 of `main.py`. -/
def initState : SessionState := ⟨10, [], Option.none⟩

/-- `np.mean` over an exact list of rationals. -/
def listMean (l : List ℚ) : ℚ := l.sum / (l.length : ℚ)

/-- Subscripting every element of `calibration_angles`: succeeds only when
no stored element is `None`; a stored `None` raises `TypeError`
(`'NoneType' object is not subscriptable`), modelled by `Option.none`. -/
def extractAll : List (Option (ℚ × ℚ × ℚ)) → Option (List (ℚ × ℚ × ℚ))
  | [] => some []
  | Option.none :: _ => Option.none
  | some a :: rest =>
    match extractAll rest with
    | some l => some (a :: l)
    | Option.none => Option.none

/-- Lines 139-141 of `main.py`: component-wise `np.mean` of the collected
angles. -/
def meanAngles (l : List (ℚ × ℚ × ℚ)) : ℚ × ℚ × ℚ :=
  (listMean (l.map (fun a => a.1)),
   listMean (l.map (fun a => a.2.1)),
   listMean (l.map (fun a => a.2.2)))

/-- Outcome of one iteration of the `while True` loop body: a new state plus
the status string passed to `send_text`, or an uncaught exception
(`crash`) that ends the session without emitting anything. -/
inductive StepResult where
  | ok (st : SessionState) (status : String)
  | crash
deriving DecidableEq

/-- The tuple carried by a non-string `process_frame` result: a pose triple,
or nothing for Python `None`. -/
def tupleVal : PyValue → Option (ℚ × ℚ × ℚ)
  | PyValue.triple p y r => some (p, y, r)
  | _ => Option.none

/-- One iteration of the loop body of `websocket_endpoint`
(lines 127-160 of `main.py`), given the value `result_base` returned by
`process_frame`.  The `type(result_base)==type('abc')` test sends exactly
the string results down the first branch; tuples *and* `None` go down the
else branch.  Crashes: subscripting a stored `None` while computing the
baseline means, and unpacking `None` into `pitch, yaw, roll`. -/
def step (st : SessionState) (result_base : PyValue) : StepResult :=
  match result_base with
  | PyValue.str s => StepResult.ok st s
  | v =>
    let val : Option (ℚ × ℚ × ℚ) := tupleVal v
    if st.calibration_frames ≠ 0 then
      let frames' := st.calibration_frames - 1
      let angles' := st.calibration_angles ++ [val]
      if frames' = 0 then
        match extractAll angles' with
        | Option.none => StepResult.crash
        | some collected =>
          StepResult.ok ⟨frames', angles', some (meanAngles collected)⟩
            "Calculating Face Angles"
      else
        StepResult.ok ⟨frames', angles', st.baseline⟩ "Calculating Face Angles"
    else
      match val with
      | Option.none => StepResult.crash
      | some (p, y, r) =>
        match st.baseline with
        | Option.none => StepResult.crash
        | some (p0, y0, r0) =>
          if |p - p0| < 40 ∧ |y - y0| < 40 ∧ |r - r0| < 40 then
            StepResult.ok st "Focused"
          else
            StepResult.ok st "Not Focused"

/-- The statuses emitted by a session started in `st` and fed the given
`process_frame` results, in order; the list ends early iff the loop body
raised an uncaught exception. -/
def runOut : SessionState → List PyValue → List String
  | _, [] => []
  | st, v :: vs =>
    match step st v with
    | StepResult.ok st' s => s :: runOut st' vs
    | StepResult.crash => []

/-- The state of a session started in `st` after consuming the given
`process_frame` results; `none` iff the loop body raised an uncaught
exception along the way. -/
def runValues : SessionState → List PyValue → Option SessionState
  | st, [] => some st
  | st, v :: vs =>
    match step st v with
    | StepResult.ok st' _ => runValues st' vs
    | StepResult.crash => Option.none

/-- Statuses emitted by a whole session on a list of inbound frame
payloads. -/
def runSession (env : Env) (st : SessionState) (inputs : List String) : List String :=
  runOut st (inputs.map (process_frame env))

/-- Whether a `PyValue` is a `(pitch, yaw, roll)` tuple, i.e. a successful
pose estimate. -/
def isTriple : PyValue → Bool
  | PyValue.triple _ _ _ => true
  | _ => false

/-- Whether a `PyValue` is a string (the `type(result_base)==type('abc')`
test of line 129). -/
def isStr : PyValue → Bool
  | PyValue.str _ => true
  | _ => false

/-- Number of successful pose estimates in a list of frame results. -/
def countTriples (vs : List PyValue) : ℕ := (vs.filter isTriple).length

/-- Number of non-`None` entries of the calibration list. -/
def countSome (l : List (Option (ℚ × ℚ × ℚ))) : ℕ :=
  (l.filter Option.isSome).length

-- Sample environments used to instantiate the universally quantified
-- theorems at concrete inputs.

/-- Environment in which every stage succeeds and the solver always returns
pose `(0, 0, 0)`. -/
def envOk : Env :=
  ⟨fun _ => Except.ok [0], fun _ => some 0, fun _ => some 0, fun _ => some (0, 0, 0)⟩

/-- Environment in which landmarks are found but `solvePnP` never
converges. -/
def envPnPFail : Env :=
  ⟨fun _ => Except.ok [0], fun _ => some 0, fun _ => some 0, fun _ => Option.none⟩

/-- Environment in which no face is ever found. -/
def envNoFace : Env :=
  ⟨fun _ => Except.ok [0], fun _ => some 0, fun _ => Option.none, fun _ => Option.none⟩

/-- Environment in which base64 decoding always raises. -/
def envB64Fail : Env :=
  ⟨fun _ => Except.error "Invalid base64-encoded string", fun _ => some 0,
   fun _ => Option.none, fun _ => Option.none⟩

example : process_frame envOk "x" = PyValue.triple 0 0 0 := by decide
example : process_frame envPnPFail "x" = PyValue.none := by decide
example : process_frame envNoFace "x" = PyValue.str "Pose Not Detected" := by decide
example :
    step initState PyValue.none
      = StepResult.ok ⟨9, [Option.none], Option.none⟩ "Calculating Face Angles" := by
  decide

/-! ### Basic lemmas about the mean -/

theorem listMean_replicate (n : ℕ) (q : ℚ) (hn : n ≠ 0) :
    listMean (List.replicate n q) = q := by
  unfold listMean
  rw [List.sum_replicate, List.length_replicate, nsmul_eq_mul,
    mul_div_cancel_left₀]
  exact Nat.cast_ne_zero.mpr hn

theorem meanAngles_replicate (n : ℕ) (t : ℚ × ℚ × ℚ) (hn : n ≠ 0) :
    meanAngles (List.replicate n t) = t := by
  unfold meanAngles
  rw [List.map_replicate, List.map_replicate, List.map_replicate,
    listMean_replicate n _ hn, listMean_replicate n _ hn, listMean_replicate n _ hn]

/-! ### C2 and C3 -/

/-- C2: once the baseline `(p0, y0, r0)` exists (calibration counter is 0),
a successful estimate `(p, y, r)` is classified `"Focused"` iff all three
absolute differences are strictly below 40 degrees, and `"Not Focused"`
otherwise; in particular a difference of exactly 40 on one axis is
`"Not Focused"`. -/
theorem focus_classification_threshold
    (st : SessionState) (p y r p0 y0 r0 : ℚ) (st' : SessionState) (s : String)
    (h0 : st.calibration_frames = 0) (hb : st.baseline = some (p0, y0, r0))
    (hstep : step st (PyValue.triple p y r) = StepResult.ok st' s) :
    (s = "Focused" ↔ |p - p0| < 40 ∧ |y - y0| < 40 ∧ |r - r0| < 40) ∧
    (¬(|p - p0| < 40 ∧ |y - y0| < 40 ∧ |r - r0| < 40) → s = "Not Focused") := by
  simp only [step, tupleVal, h0, hb] at hstep
  norm_num at hstep
  by_cases hc : |p - p0| < 40 ∧ |y - y0| < 40 ∧ |r - r0| < 40
  · rw [if_pos hc] at hstep
    injection hstep with h1 h2
    subst h2
    exact ⟨iff_of_true rfl hc, fun h => absurd hc h⟩
  · rw [if_neg hc] at hstep
    injection hstep with h1 h2
    subst h2
    exact ⟨iff_of_false (by decide) hc, fun _ => rfl⟩

/-- Witness for C2: baseline `(0,0,0)`, estimate `(40,0,0)` is
`"Not Focused"`. -/
theorem focus_classification_threshold_witness :
    ("Not Focused" = "Focused" ↔
      |(40 : ℚ) - 0| < 40 ∧ |(0 : ℚ) - 0| < 40 ∧ |(0 : ℚ) - 0| < 40) ∧
    (¬(|(40 : ℚ) - 0| < 40 ∧ |(0 : ℚ) - 0| < 40 ∧ |(0 : ℚ) - 0| < 40) →
      "Not Focused" = "Not Focused") :=
  focus_classification_threshold ⟨0, [], some (0, 0, 0)⟩ 40 0 0 0 0 0
    ⟨0, [], some (0, 0, 0)⟩ "Not Focused" rfl rfl (by norm_num [step, tupleVal])

/-- Running ten identical successful estimates from the initial state
collects them all and sets the baseline to that very estimate. -/
theorem runValues_replicate_triple (p y r : ℚ) :
    runValues initState (List.replicate 10 (PyValue.triple p y r)) =
      some ⟨0, List.replicate 10 (some (p, y, r)), some (p, y, r)⟩ := by
  have h1 : runValues initState (List.replicate 10 (PyValue.triple p y r)) =
      some ⟨0, List.replicate 10 (some (p, y, r)),
        some (meanAngles (List.replicate 10 ((p, y, r) : ℚ × ℚ × ℚ)))⟩ := rfl
  rw [h1, meanAngles_replicate 10 (p, y, r) (by norm_num)]

/-- C3: the finalized baseline is the component-wise arithmetic mean of the
collected estimates, and a session whose 10 collected estimates all equal
`(p, y, r)` ends calibration with baseline exactly `(p, y, r)`. -/
theorem baseline_mean_idempotent :
    (∀ (st : SessionState) (p0 y0 r0 : ℚ) (st' : SessionState) (s : String)
        (collected : List (ℚ × ℚ × ℚ)),
      st.calibration_frames = 1 →
      step st (PyValue.triple p0 y0 r0) = StepResult.ok st' s →
      extractAll (st.calibration_angles ++ [some (p0, y0, r0)]) = some collected →
      st'.baseline = some (meanAngles collected)) ∧
    (∀ p y r : ℚ,
      runValues initState (List.replicate 10 (PyValue.triple p y r)) =
        some ⟨0, List.replicate 10 (some (p, y, r)), some (p, y, r)⟩) := by
  constructor
  · intro st p0 y0 r0 st' s collected h1 hstep hex
    have hs : step st (PyValue.triple p0 y0 r0) =
        StepResult.ok ⟨0, st.calibration_angles ++ [some (p0, y0, r0)],
          some (meanAngles collected)⟩ "Calculating Face Angles" := by
      simp only [step, tupleVal, h1]
      norm_num
      rw [hex]
    rw [hs] at hstep
    injection hstep with h2 h3
    rw [← h2]
  · exact runValues_replicate_triple

/-- Witness for C3: a concrete finalizing step from a state with one slot
left. -/
theorem baseline_mean_idempotent_witness :
    (⟨0, List.replicate 10 (some ((1 : ℚ), (2 : ℚ), (3 : ℚ))),
        some (meanAngles (List.replicate 10 ((1 : ℚ), (2 : ℚ), (3 : ℚ))))⟩ :
      SessionState).baseline =
      some (meanAngles (List.replicate 10 ((1 : ℚ), (2 : ℚ), (3 : ℚ)))) :=
  baseline_mean_idempotent.1
    ⟨1, List.replicate 9 (some (1, 2, 3)), Option.none⟩ 1 2 3
    ⟨0, List.replicate 10 (some (1, 2, 3)),
      some (meanAngles (List.replicate 10 ((1 : ℚ), (2 : ℚ), (3 : ℚ))))⟩
    "Calculating Face Angles" (List.replicate 10 (1, 2, 3))
    rfl rfl rfl

/-! ### Step-level lemmas -/

/-- A string result leaves the state untouched and is echoed verbatim. -/
theorem step_str (st : SessionState) (s : String) :
    step st (PyValue.str s) = StepResult.ok st s := rfl

/-- Once the counter is 0, every non-crashing step leaves the whole state
unchanged. -/
theorem step_state_of_frames_zero
    (st : SessionState) (v : PyValue) (st' : SessionState) (s : String)
    (h0 : st.calibration_frames = 0)
    (h : step st v = StepResult.ok st' s) : st' = st := by
  cases v with
  | str s' =>
    rw [step_str] at h
    injection h with h1 h2
    exact h1.symm
  | triple p y r =>
    cases hb : st.baseline with
    | none =>
      simp only [step, tupleVal, h0, hb] at h
      norm_num at h
      exact StepResult.noConfusion h
    | some b =>
      obtain ⟨p0, y0, r0⟩ := b
      simp only [step, tupleVal, h0, hb] at h
      norm_num at h
      by_cases hc : |p - p0| < 40 ∧ |y - y0| < 40 ∧ |r - r0| < 40
      · rw [if_pos hc] at h
        injection h with h1 h2
        exact h1.symm
      · rw [if_neg hc] at h
        injection h with h1 h2
        exact h1.symm
  | none =>
    simp only [step, tupleVal, h0] at h
    norm_num at h
    exact StepResult.noConfusion h

/-- Unfolding of `step` for a non-string result while the counter is
nonzero. -/
theorem step_eq_of_calibrating (st : SessionState) (v : PyValue)
    (hne : st.calibration_frames ≠ 0) (hv : isStr v = false) :
    step st v =
      (if st.calibration_frames - 1 = 0 then
        match extractAll (st.calibration_angles ++ [tupleVal v]) with
        | Option.none => StepResult.crash
        | some collected =>
          StepResult.ok ⟨st.calibration_frames - 1,
            st.calibration_angles ++ [tupleVal v],
            some (meanAngles collected)⟩ "Calculating Face Angles"
      else
        StepResult.ok ⟨st.calibration_frames - 1,
          st.calibration_angles ++ [tupleVal v], st.baseline⟩
          "Calculating Face Angles") := by
  cases v with
  | str s' => simp [isStr] at hv
  | triple p y r => simp only [step, tupleVal, if_pos hne]
  | none => simp only [step, tupleVal, if_pos hne]

/-- A non-string result while calibrating decrements the counter, appends
the (possibly `None`) value, emits `"Calculating Face Angles"`, and leaves
the baseline alone unless the counter just hit 0. -/
theorem step_calibrating
    (st : SessionState) (v : PyValue) (st' : SessionState) (s : String)
    (hne : st.calibration_frames ≠ 0) (hv : isStr v = false)
    (h : step st v = StepResult.ok st' s) :
    st'.calibration_frames = st.calibration_frames - 1 ∧
    st'.calibration_angles = st.calibration_angles ++ [tupleVal v] ∧
    s = "Calculating Face Angles" ∧
    (st'.calibration_frames ≠ 0 → st'.baseline = st.baseline) ∧
    (st'.calibration_frames = 0 → ∃ collected,
      extractAll (st.calibration_angles ++ [tupleVal v]) = some collected ∧
      st'.baseline = some (meanAngles collected)) := by
  rw [step_eq_of_calibrating st v hne hv] at h
  by_cases hz : st.calibration_frames - 1 = 0
  · rw [if_pos hz] at h
    cases hex : extractAll (st.calibration_angles ++ [tupleVal v]) with
    | none =>
      rw [hex] at h
      simp at h
    | some collected =>
      rw [hex] at h
      simp only at h
      injection h with h1 h2
      rw [← h1]
      exact ⟨rfl, rfl, h2.symm, fun hcontra => absurd hz hcontra,
        fun _ => ⟨collected, rfl, rfl⟩⟩
  · rw [if_neg hz] at h
    injection h with h1 h2
    rw [← h1]
    exact ⟨rfl, rfl, h2.symm, fun _ => rfl, fun h0 => absurd h0 hz⟩

/-! ### Run-level lemmas -/

/-- After the counter reaches 0, the session state is frozen for the rest of
the run. -/
theorem runValues_frames_zero (ws : List PyValue) :
    ∀ (st st' : SessionState), st.calibration_frames = 0 →
      runValues st ws = some st' → st' = st := by
  induction ws with
  | nil =>
    intro st st' _ h
    simp only [runValues] at h
    injection h with h1
    exact h1.symm
  | cons v ws ih =>
    intro st st' h0 h
    cases hs : step st v with
    | ok st1 s1 =>
      simp only [runValues, hs] at h
      have h1 : st1 = st := step_state_of_frames_zero st v st1 s1 h0 hs
      rw [ih st1 st' (by rw [h1, h0]) h, h1]
    | crash =>
      simp only [runValues, hs] at h
      exact Option.noConfusion h

/-- Invariant: the baseline is unset until the counter reaches 0. -/
theorem step_baseline_unset_inv
    (st : SessionState) (v : PyValue) (st' : SessionState) (s : String)
    (hJ : st.baseline = Option.none ∨ st.calibration_frames = 0)
    (h : step st v = StepResult.ok st' s) :
    st'.baseline = Option.none ∨ st'.calibration_frames = 0 := by
  by_cases h0 : st.calibration_frames = 0
  · rw [step_state_of_frames_zero st v st' s h0 h]
    exact Or.inr h0
  · have hb : st.baseline = Option.none := by
      cases hJ with
      | inl hJ => exact hJ
      | inr hJ => exact absurd hJ h0
    cases v with
    | str s' =>
      have h' : StepResult.ok st s' = StepResult.ok st' s := h
      injection h' with h1 h2
      rw [← h1]
      exact Or.inl hb
    | triple p y r =>
      have hc := step_calibrating st (PyValue.triple p y r) st' s h0 rfl h
      by_cases hz : st'.calibration_frames = 0
      · exact Or.inr hz
      · exact Or.inl (by rw [hc.2.2.2.1 hz, hb])
    | none =>
      have hc := step_calibrating st PyValue.none st' s h0 rfl h
      by_cases hz : st'.calibration_frames = 0
      · exact Or.inr hz
      · exact Or.inl (by rw [hc.2.2.2.1 hz, hb])

/-- Run-level version of `step_baseline_unset_inv`. -/
theorem runValues_baseline_unset_inv (vs : List PyValue) :
    ∀ (st st' : SessionState),
      st.baseline = Option.none ∨ st.calibration_frames = 0 →
      runValues st vs = some st' →
      st'.baseline = Option.none ∨ st'.calibration_frames = 0 := by
  induction vs with
  | nil =>
    intro st st' hJ h
    simp only [runValues] at h
    injection h with h1
    rw [← h1]
    exact hJ
  | cons v vs ih =>
    intro st st' hJ h
    cases hs : step st v with
    | ok st1 s1 =>
      simp only [runValues, hs] at h
      exact ih st1 st' (step_baseline_unset_inv st v st1 s1 hJ hs) h
    | crash =>
      simp only [runValues, hs] at h
      exact Option.noConfusion h

/-- C7: once a session's baseline has been computed it never changes: if a
session reachable from the initial state has baseline `b`, then after
processing any further frames the baseline is still `b`. -/
theorem baseline_immutable
    (vs : List PyValue) (st : SessionState) (b : ℚ × ℚ × ℚ)
    (ws : List PyValue) (st' : SessionState)
    (hrun : runValues initState vs = some st)
    (hb : st.baseline = some b)
    (hrun' : runValues st ws = some st') :
    st'.baseline = some b := by
  have hJ := runValues_baseline_unset_inv vs initState st (Or.inl rfl) hrun
  have h0 : st.calibration_frames = 0 := by
    cases hJ with
    | inl hJ => rw [hJ] at hb; exact Option.noConfusion hb
    | inr hJ => exact hJ
  rw [runValues_frames_zero ws st st' h0 hrun', hb]

/-- Witness for C7: after calibrating on ten `(4,5,6)` frames, one more
(string-result) frame leaves the baseline untouched. -/
theorem baseline_immutable_witness :
    (⟨0, List.replicate 10 (some ((4 : ℚ), (5 : ℚ), (6 : ℚ))),
        some (meanAngles (List.replicate 10 ((4 : ℚ), (5 : ℚ), (6 : ℚ))))⟩ :
      SessionState).baseline =
      some (meanAngles (List.replicate 10 ((4 : ℚ), (5 : ℚ), (6 : ℚ)))) :=
  baseline_immutable (List.replicate 10 (PyValue.triple 4 5 6))
    ⟨0, List.replicate 10 (some (4, 5, 6)),
      some (meanAngles (List.replicate 10 ((4 : ℚ), (5 : ℚ), (6 : ℚ))))⟩
    (meanAngles (List.replicate 10 ((4 : ℚ), (5 : ℚ), (6 : ℚ))))
    [PyValue.str "Pose Not Detected"]
    ⟨0, List.replicate 10 (some (4, 5, 6)),
      some (meanAngles (List.replicate 10 ((4 : ℚ), (5 : ℚ), (6 : ℚ))))⟩
    rfl rfl rfl

/-- Counter facts for one step: stays nonnegative, never increases, drops by
at most one, and is absorbing at 0. -/
theorem step_frames_facts
    (st : SessionState) (v : PyValue) (st' : SessionState) (s : String)
    (hpos : 0 ≤ st.calibration_frames)
    (h : step st v = StepResult.ok st' s) :
    0 ≤ st'.calibration_frames ∧
    st'.calibration_frames ≤ st.calibration_frames ∧
    st.calibration_frames - 1 ≤ st'.calibration_frames ∧
    (st.calibration_frames = 0 → st'.calibration_frames = 0) := by
  by_cases h0 : st.calibration_frames = 0
  · rw [step_state_of_frames_zero st v st' s h0 h]
    omega
  · cases v with
    | str s' =>
      have h' : StepResult.ok st s' = StepResult.ok st' s := h
      injection h' with h1 h2
      rw [← h1]
      omega
    | triple p y r =>
      have hc := (step_calibrating st (PyValue.triple p y r) st' s h0 rfl h).1
      omega
    | none =>
      have hc := (step_calibrating st PyValue.none st' s h0 rfl h).1
      omega

/-- Run-level counter bounds. -/
theorem runValues_frames_bounds (vs : List PyValue) :
    ∀ (st st' : SessionState), 0 ≤ st.calibration_frames →
      runValues st vs = some st' →
      0 ≤ st'.calibration_frames ∧
      st'.calibration_frames ≤ st.calibration_frames := by
  induction vs with
  | nil =>
    intro st st' hpos h
    simp only [runValues] at h
    injection h with h1
    rw [← h1]
    omega
  | cons v vs ih =>
    intro st st' hpos h
    cases hs : step st v with
    | ok st1 s1 =>
      simp only [runValues, hs] at h
      have h1 := step_frames_facts st v st1 s1 hpos hs
      have h2 := ih st1 st' h1.1 h
      omega
    | crash =>
      simp only [runValues, hs] at h
      exact Option.noConfusion h

/-- C8: the calibration counter starts at 10, never goes below the previous
value minus one, never increases, stays nonnegative, is absorbing at 0, and
along any run from the initial state remains within `[0, 10]`. -/
theorem calibration_counter_props :
    initState.calibration_frames = 10 ∧
    (∀ (st : SessionState) (v : PyValue) (st' : SessionState) (s : String),
      0 ≤ st.calibration_frames → step st v = StepResult.ok st' s →
      0 ≤ st'.calibration_frames ∧
      st'.calibration_frames ≤ st.calibration_frames ∧
      st.calibration_frames - 1 ≤ st'.calibration_frames ∧
      (st.calibration_frames = 0 → st'.calibration_frames = 0)) ∧
    (∀ (vs : List PyValue) (st : SessionState),
      runValues initState vs = some st →
      0 ≤ st.calibration_frames ∧ st.calibration_frames ≤ 10) := by
  refine ⟨rfl, step_frames_facts, ?_⟩
  intro vs st h
  have := runValues_frames_bounds vs initState st (by decide) h
  simp only [initState] at this
  exact ⟨this.1, this.2⟩

/-- Witness for C8: one string-result step from the initial state. -/
theorem calibration_counter_props_witness :
    0 ≤ initState.calibration_frames ∧
    initState.calibration_frames ≤ initState.calibration_frames ∧
    initState.calibration_frames - 1 ≤ initState.calibration_frames ∧
    (initState.calibration_frames = 0 → initState.calibration_frames = 0) :=
  calibration_counter_props.2.1 initState (PyValue.str "Error: Invalid frame")
    initState "Error: Invalid frame" (by decide) rfl

/-! ### Counting lemmas for the calibration phase -/

theorem countSome_append_singleton (l : List (Option (ℚ × ℚ × ℚ)))
    (x : Option (ℚ × ℚ × ℚ)) :
    countSome (l ++ [x]) = countSome l + (if x.isSome then 1 else 0) := by
  cases hx : x.isSome <;>
    simp [countSome, List.filter_append, List.filter_cons, hx]

theorem tupleVal_isSome (v : PyValue) : (tupleVal v).isSome = isTriple v := by
  cases v <;> rfl

theorem countTriples_cons (v : PyValue) (vs : List PyValue) :
    countTriples (v :: vs) = (if isTriple v then 1 else 0) + countTriples vs := by
  cases hv : isTriple v <;> simp [countTriples, List.filter_cons, hv, Nat.add_comm]

/-- If subscripting all collected angles succeeds, every entry is non-`None`. -/
theorem extractAll_countSome (l : List (Option (ℚ × ℚ × ℚ))) :
    ∀ c, extractAll l = some c → countSome l = l.length := by
  induction l with
  | nil => intro c _; rfl
  | cons x rest ih =>
    intro c h
    cases x with
    | none =>
      simp only [extractAll] at h
      exact Option.noConfusion h
    | some a =>
      simp only [extractAll] at h
      cases hrest : extractAll rest with
      | none =>
        simp only [hrest] at h
        exact Option.noConfusion h
      | some lc =>
        have hr := ih lc hrest
        simp only [countSome, List.filter_cons, Option.isSome_some, if_true,
          List.length_cons] at hr ⊢
        omega

/-- Invariant of reachable (non-crashed) session states: counter plus
collected-list length is 10, and when the counter is 0 all ten collected
entries are genuine estimates. -/
def CalInv (st : SessionState) : Prop :=
  st.calibration_frames + (st.calibration_angles.length : ℤ) = 10 ∧
  (st.calibration_frames = 0 → countSome st.calibration_angles = 10)

theorem initState_CalInv : CalInv initState :=
  ⟨by decide, fun h => absurd h (by decide)⟩

theorem step_CalInv (st : SessionState) (v : PyValue) (st' : SessionState)
    (s : String) (hInv : CalInv st) (h : step st v = StepResult.ok st' s) :
    CalInv st' := by
  cases hv : isStr v with
  | true =>
    cases v with
    | str s' =>
      have h' : StepResult.ok st s' = StepResult.ok st' s := h
      injection h' with h1 h2
      rw [← h1]
      exact hInv
    | triple p y r => simp [isStr] at hv
    | none => simp [isStr] at hv
  | false =>
    by_cases h0 : st.calibration_frames = 0
    · rw [step_state_of_frames_zero st v st' s h0 h]
      exact hInv
    · obtain ⟨hf, ha, _, _, hb5⟩ := step_calibrating st v st' s h0 hv h
      have h1 := hInv.1
      constructor
      · rw [hf, ha]
        simp only [List.length_append, List.length_cons, List.length_nil]
        push_cast
        push_cast at h1
        omega
      · intro hz0
        obtain ⟨c, hex, _⟩ := hb5 hz0
        have hcnt := extractAll_countSome _ c hex
        have hlen : (st.calibration_angles ++ [tupleVal v]).length = 10 := by
          simp only [List.length_append, List.length_cons, List.length_nil]
          rw [hf] at hz0
          omega
        rw [ha, hcnt, hlen]

/-- A classification status can only be produced with the counter at 0. -/
theorem step_classification_frames_zero
    (st : SessionState) (v : PyValue) (st' : SessionState) (s : String)
    (hv : isStr v = false) (h : step st v = StepResult.ok st' s)
    (hcls : s = "Focused" ∨ s = "Not Focused") :
    st.calibration_frames = 0 := by
  by_contra h0
  have hc := (step_calibrating st v st' s h0 hv h).2.2.1
  cases hcls with
  | inl h1 => rw [h1] at hc; exact absurd hc (by decide)
  | inr h1 => rw [h1] at hc; exact absurd hc (by decide)

/-! ### `process_frame` string outputs are never classifications -/

theorem b64_stage_error_shape (env : Env) (input : String) (e : String)
    (h : b64_stage env input = Except.error e) :
    ∃ e', e = "Error: Decoding Base64 failed - " ++ e' := by
  unfold b64_stage at h
  cases hstrip : stripped_input input with
  | error e1 =>
    simp only [hstrip] at h
    injection h with h1
    exact ⟨e1, h1.symm⟩
  | ok d =>
    simp only [hstrip] at h
    cases hdec : env.b64decode d with
    | error e2 =>
      simp only [hdec] at h
      injection h with h1
      exact ⟨e2, h1.symm⟩
    | ok b =>
      simp only [hdec] at h
      exact Except.noConfusion h

theorem error_str_ne_classification (e' : String) :
    ("Error: Decoding Base64 failed - " ++ e') ≠ "Focused" ∧
    ("Error: Decoding Base64 failed - " ++ e') ≠ "Not Focused" := by
  constructor
  · intro h
    have h2 := congrArg String.length h
    rw [String.length_append,
      show ("Error: Decoding Base64 failed - ").length = 32 from rfl,
      show ("Focused").length = 7 from rfl] at h2
    omega
  · intro h
    have h2 := congrArg String.length h
    rw [String.length_append,
      show ("Error: Decoding Base64 failed - ").length = 32 from rfl,
      show ("Not Focused").length = 11 from rfl] at h2
    omega

theorem process_frame_str_shape (env : Env) (input : String) (s : String)
    (h : process_frame env input = PyValue.str s) :
    (∃ e', s = "Error: Decoding Base64 failed - " ++ e') ∨
    s = "Error: Invalid frame" ∨ s = "Pose Not Detected" := by
  unfold process_frame at h
  cases hb : b64_stage env input with
  | error msg =>
    simp only [hb] at h
    injection h with h1
    obtain ⟨e', he⟩ := b64_stage_error_shape env input msg hb
    exact Or.inl ⟨e', by rw [← h1, he]⟩
  | ok bytes =>
    simp only [hb] at h
    cases him : env.imdecode bytes with
    | none =>
      simp only [him] at h
      injection h with h1
      exact Or.inr (Or.inl h1.symm)
    | some frame =>
      simp only [him] at h
      cases hfl : env.faceLandmarks frame with
      | none =>
        simp only [hfl] at h
        injection h with h1
        exact Or.inr (Or.inr h1.symm)
      | some lms =>
        simp only [hfl] at h
        cases hpnp : env.solvePnP lms with
        | none =>
          simp only [hpnp] at h
          exact PyValue.noConfusion h
        | some t =>
          obtain ⟨p, y, r⟩ := t
          simp only [hpnp] at h
          exact PyValue.noConfusion h

theorem process_frame_str_not_classification (env : Env) (input : String)
    (s : String) (h : process_frame env input = PyValue.str s) :
    s ≠ "Focused" ∧ s ≠ "Not Focused" := by
  rcases process_frame_str_shape env input s h with ⟨e', he⟩ | he | he
  · rw [he]
    exact error_str_ne_classification e'
  · rw [he]
    exact ⟨by decide, by decide⟩
  · rw [he]
    exact ⟨by decide, by decide⟩

/-- Core induction for C4: along any run whose string inputs are not
classification strings (as is the case for `process_frame` outputs), a
classification at output position `k` requires at least
`10 - countSome st.calibration_angles` further successful estimates among
the first `k` frames. -/
theorem runOut_classification_count (vs : List PyValue) :
    ∀ (st : SessionState) (k : ℕ) (s : String),
      CalInv st →
      (∀ v ∈ vs, ∀ s', v = PyValue.str s' → s' ≠ "Focused" ∧ s' ≠ "Not Focused") →
      (runOut st vs).get? k = some s →
      (s = "Focused" ∨ s = "Not Focused") →
      10 ≤ countSome st.calibration_angles + countTriples (List.take k vs) := by
  induction vs with
  | nil =>
    intro st k s _ _ h _
    simp [runOut] at h
  | cons v vs ih =>
    intro st k s hInv hstr h hcls
    cases hs : step st v with
    | crash =>
      simp only [runOut, hs] at h
      simp at h
    | ok st1 s1 =>
      simp only [runOut, hs] at h
      cases k with
      | zero =>
        simp only [List.get?] at h
        injection h with h1
        have hcls1 : s1 = "Focused" ∨ s1 = "Not Focused" := by
          rw [h1]; exact hcls
        have hv : isStr v = false := by
          cases v with
          | str s' =>
            have h' : StepResult.ok st s' = StepResult.ok st1 s1 := hs
            injection h' with _ h2
            have := hstr (PyValue.str s') (by simp) s' rfl
            rw [h2] at this
            cases hcls1 with
            | inl hx => exact absurd hx this.1
            | inr hx => exact absurd hx this.2
          | triple p y r => rfl
          | none => rfl
        have h0 := step_classification_frames_zero st v st1 s1 hv hs hcls1
        have h10 := hInv.2 h0
        simp only [List.take_zero]
        rw [h10]
        simp [countTriples]
      | succ k =>
        simp only [List.get?] at h
        have hInv1 := step_CalInv st v st1 s1 hInv hs
        have hrec := ih st1 k s hInv1
          (fun v' hv' => hstr v' (List.mem_cons_of_mem v hv')) h hcls
        have hcs : countSome st1.calibration_angles ≤
            countSome st.calibration_angles + (if isTriple v then 1 else 0) := by
          cases hv : isStr v with
          | true =>
            cases v with
            | str s' =>
              have h' : StepResult.ok st s' = StepResult.ok st1 s1 := hs
              injection h' with h1 _
              rw [← h1]
              split <;> omega
            | triple p y r => simp [isStr] at hv
            | none => simp [isStr] at hv
          | false =>
            by_cases h0 : st.calibration_frames = 0
            · rw [step_state_of_frames_zero st v st1 s1 h0 hs]
              split <;> omega
            · have ha := (step_calibrating st v st1 s1 h0 hv hs).2.1
              rw [ha, countSome_append_singleton, tupleVal_isSome]
        rw [List.take_succ_cons, countTriples_cons]
        cases hit : isTriple v <;> simp only [hit, if_true, if_false] at hcs ⊢ <;>
          omega

/-- Splitting a run after a successfully processed prefix. -/
theorem runOut_append_of_runValues (vs : List PyValue) :
    ∀ (ws : List PyValue) (st st1 : SessionState),
      runValues st vs = some st1 →
      runOut st (vs ++ ws) = runOut st vs ++ runOut st1 ws := by
  induction vs with
  | nil =>
    intro ws st st1 h
    simp only [runValues] at h
    injection h with h1
    rw [← h1]
    simp [runOut]
  | cons v vs ih =>
    intro ws st st1 h
    cases hs : step st v with
    | crash =>
      simp only [runValues, hs] at h
      exact Option.noConfusion h
    | ok st2 s2 =>
      simp only [runValues, hs] at h
      simp only [List.cons_append, runOut, hs, List.append_eq]
      rw [ih ws st2 st1 h]

/-- C4: a classification status (`"Focused"`/`"Not Focused"`) at output
position `k` of a session requires at least 10 successful pose estimates
among the first `k` frames (so the earliest classification is strictly
after the frame carrying the 10th estimate), and a successful estimate
that arrives while the counter is nonzero — in particular the 10th one —
still emits `"Calculating Face Angles"`. -/
theorem classification_only_after_ten_estimates :
    (∀ (env : Env) (inputs : List String) (k : ℕ) (s : String),
      (runSession env initState inputs).get? k = some s →
      (s = "Focused" ∨ s = "Not Focused") →
      10 ≤ countTriples (List.take k (inputs.map (process_frame env)))) ∧
    (∀ (st : SessionState) (p y r : ℚ) (st' : SessionState) (s : String),
      st.calibration_frames ≠ 0 →
      step st (PyValue.triple p y r) = StepResult.ok st' s →
      s = "Calculating Face Angles") := by
  constructor
  · intro env inputs k s h hcls
    have hstr : ∀ v ∈ inputs.map (process_frame env), ∀ s',
        v = PyValue.str s' → s' ≠ "Focused" ∧ s' ≠ "Not Focused" := by
      intro v hv s' hvs
      obtain ⟨i, _, hmap⟩ := List.mem_map.mp hv
      rw [hvs] at hmap
      exact process_frame_str_not_classification env i s' hmap
    have := runOut_classification_count (inputs.map (process_frame env))
      initState k s initState_CalInv hstr h hcls
    simpa [initState, countSome] using this
  · intro st p y r st' s hne h
    exact (step_calibrating st (PyValue.triple p y r) st' s hne rfl h).2.2.1

/-- Witness for C4: with an environment always yielding estimate `(0,0,0)`,
eleven frames produce a `"Focused"` at position 10, and the theorem yields
at least 10 estimates among the first 10 frames. -/
theorem classification_only_after_ten_estimates_witness :
    10 ≤ countTriples
      (List.take 10 ((List.replicate 11 "x").map (process_frame envOk))) := by
  refine classification_only_after_ten_estimates.1 envOk
    (List.replicate 11 "x") 10 "Focused" ?_ (Or.inl rfl)
  have hmap : (List.replicate 11 "x").map (process_frame envOk) =
      List.replicate 11 (PyValue.triple 0 0 0) := rfl
  show (runOut initState
    ((List.replicate 11 "x").map (process_frame envOk))).get? 10 = some "Focused"
  rw [hmap,
    show List.replicate 11 (PyValue.triple (0 : ℚ) 0 0) =
      List.replicate 10 (PyValue.triple (0 : ℚ) 0 0) ++ [PyValue.triple 0 0 0]
      from List.replicate_succ' 10 _,
    runOut_append_of_runValues _ _ _ _ (runValues_replicate_triple 0 0 0),
    show runOut initState (List.replicate 10 (PyValue.triple (0 : ℚ) 0 0)) =
      List.replicate 10 "Calculating Face Angles" from rfl,
    show runOut ⟨0, List.replicate 10 (some (0, 0, 0)), some (0, 0, 0)⟩
        [PyValue.triple (0 : ℚ) 0 0] = ["Focused"] by
      simp only [runOut, step, tupleVal]
      norm_num]
  decide

/-! ### C5: per-frame totality fails on solver non-convergence -/

/-- Counterexample for C5: with landmarks found but the PnP solver never
converging, ten frames yield only nine statuses — the tenth frame (which
completes calibration) raises an uncaught `TypeError` while averaging the
stored `None`s, ending the session without a disconnect. -/
theorem per_frame_totality_cex :
    (runSession envPnPFail initState (List.replicate 10 "x")).length = 9 ∧
    (List.replicate 10 "x").length = 10 ∧
    runValues initState
      ((List.replicate 10 "x").map (process_frame envPnPFail)) = Option.none := by
  exact ⟨rfl, rfl, rfl⟩

/-- Invariant guaranteeing the loop body cannot raise: no stored `None`
among collected angles, and a baseline present once the counter is 0. -/
def NoNoneInv (st : SessionState) : Prop :=
  (∀ a ∈ st.calibration_angles, a.isSome) ∧
  (st.calibration_frames = 0 → st.baseline.isSome)

theorem extractAll_of_all_isSome (l : List (Option (ℚ × ℚ × ℚ)))
    (h : ∀ a ∈ l, a.isSome) : ∃ c, extractAll l = some c := by
  induction l with
  | nil => exact ⟨[], rfl⟩
  | cons x rest ih =>
    cases x with
    | none =>
      have := h Option.none (List.mem_cons_self _ _)
      simp at this
    | some a =>
      obtain ⟨c, hc⟩ := ih (fun a' ha' => h a' (List.mem_cons_of_mem _ ha'))
      exact ⟨a :: c, by simp only [extractAll, hc]⟩

/-- A frame whose `process_frame` value is not `None` always produces a
status and preserves the no-`None` invariant. -/
theorem step_total_of_not_none (st : SessionState) (v : PyValue)
    (hInv : NoNoneInv st) (hv : v ≠ PyValue.none) :
    ∃ st' s, step st v = StepResult.ok st' s ∧ NoNoneInv st' := by
  cases v with
  | str s' => exact ⟨st, s', rfl, hInv⟩
  | none => exact absurd rfl hv
  | triple p y r =>
    by_cases h0 : st.calibration_frames = 0
    · obtain ⟨b, hb⟩ := Option.isSome_iff_exists.mp (hInv.2 h0)
      obtain ⟨p0, y0, r0⟩ := b
      by_cases hc : |p - p0| < 40 ∧ |y - y0| < 40 ∧ |r - r0| < 40
      · refine ⟨st, "Focused", ?_, hInv⟩
        simp only [step, tupleVal, h0, hb]
        rw [if_neg (show ¬((0 : ℤ) ≠ 0) by norm_num), if_pos hc]
      · refine ⟨st, "Not Focused", ?_, hInv⟩
        simp only [step, tupleVal, h0, hb]
        rw [if_neg (show ¬((0 : ℤ) ≠ 0) by norm_num), if_neg hc]
    · have hall : ∀ a ∈ st.calibration_angles ++ [tupleVal (PyValue.triple p y r)],
          a.isSome := by
        intro a ha
        rcases List.mem_append.mp ha with ha | ha
        · exact hInv.1 a ha
        · rw [List.mem_singleton.mp ha]
          rfl
      rw [step_eq_of_calibrating st (PyValue.triple p y r) h0 rfl]
      by_cases hz : st.calibration_frames - 1 = 0
      · obtain ⟨c, hc⟩ := extractAll_of_all_isSome _ hall
        rw [if_pos hz, hc]
        exact ⟨_, _, rfl, hall, fun _ => rfl⟩
      · rw [if_neg hz]
        exact ⟨_, _, rfl, hall, fun hz0 => absurd hz0 hz⟩

theorem runOut_length_of_no_none (vs : List PyValue) :
    ∀ st : SessionState, NoNoneInv st → (∀ v ∈ vs, v ≠ PyValue.none) →
      (runOut st vs).length = vs.length := by
  induction vs with
  | nil => intro st _ _; rfl
  | cons v vs ih =>
    intro st hInv hno
    obtain ⟨st', s, hs, hInv'⟩ :=
      step_total_of_not_none st v hInv (hno v (List.mem_cons_self _ _))
    simp only [runOut, hs, List.length_cons]
    rw [ih st' hInv' (fun v' hv' => hno v' (List.mem_cons_of_mem _ hv'))]

/-- C5 (amended): as long as `process_frame` never returns `None` (i.e. the
solver converges whenever landmarks are found), the session emits exactly
one status per inbound frame, in order, and never terminates on its own. -/
theorem per_frame_totality_amended (env : Env) (inputs : List String)
    (hno : ∀ i ∈ inputs, process_frame env i ≠ PyValue.none) :
    (runSession env initState inputs).length = inputs.length := by
  unfold runSession
  rw [runOut_length_of_no_none (inputs.map (process_frame env)) initState
    ⟨fun a ha => absurd ha (List.not_mem_nil a), fun h => absurd h (by decide)⟩
    (by
      intro v hv
      obtain ⟨i, hi, hmap⟩ := List.mem_map.mp hv
      rw [← hmap]
      exact hno i hi)]
  exact List.length_map inputs (process_frame env)

/-- Witness for C5 (amended), in an environment where no face is ever
found. -/
theorem per_frame_totality_amended_witness :
    (runSession envNoFace initState ["a", "b"]).length = (["a", "b"] : List String).length :=
  per_frame_totality_amended envNoFace ["a", "b"]
    (by
      intro i hi
      simp only [List.mem_cons, List.not_mem_nil, or_false] at hi
      rcases hi with rfl | rfl <;> decide)

/-! ### C1, C9: detection failures and the `None` return -/

/-- Counterexample for C1: a frame with landmarks found but a
non-converging solver is a detection failure per the claim, yet the session
does not emit `"Pose Not Detected"` — it emits `"Calculating Face Angles"`
and consumes a calibration slot (counter 10 → 9, a `None` appended). -/
theorem pose_not_detected_cex :
    process_frame envPnPFail "x" = PyValue.none ∧
    step initState (process_frame envPnPFail "x") =
      StepResult.ok ⟨9, [Option.none], Option.none⟩ "Calculating Face Angles" ∧
    ("Calculating Face Angles" : String) ≠ "Pose Not Detected" ∧
    (9 : ℤ) ≠ initState.calibration_frames ∧
    ([Option.none] : List (Option (ℚ × ℚ × ℚ))) ≠ initState.calibration_angles := by
  exact ⟨rfl, rfl, by decide, by decide, by decide⟩

/-- C1 (amended): only the no-face case behaves as claimed: when the
landmark provider finds no face the session emits `"Pose Not Detected"`
and the whole session state is unchanged; a solver non-convergence instead
yields Python `None` and is treated as a successful estimate. -/
theorem pose_not_detected_amended (env : Env) (input : String)
    (bytes : List ℕ) (frame : ℕ)
    (hb : b64_stage env input = Except.ok bytes)
    (hi : env.imdecode bytes = some frame)
    (hf : env.faceLandmarks frame = Option.none) :
    process_frame env input = PyValue.str "Pose Not Detected" ∧
    ∀ st : SessionState,
      step st (process_frame env input) = StepResult.ok st "Pose Not Detected" := by
  have hpf : process_frame env input = PyValue.str "Pose Not Detected" := by
    simp only [process_frame, hb, hi, hf]
  exact ⟨hpf, fun st => by rw [hpf]; exact step_str st _⟩

/-- Witness for C1 (amended). -/
theorem pose_not_detected_amended_witness :
    process_frame envNoFace "x" = PyValue.str "Pose Not Detected" ∧
    step initState (process_frame envNoFace "x") =
      StepResult.ok initState "Pose Not Detected" :=
  have h := pose_not_detected_amended envNoFace "x" [0] 0 rfl rfl rfl
  ⟨h.1, h.2 initState⟩

/-- C9: when landmarks are detected but `cv2.solvePnP` reports failure,
`process_frame` returns `None` — neither a status string nor a pose tuple —
and the session's string-type test sends it down the success branch: from
the initial state it consumes a calibration slot and emits
`"Calculating Face Angles"` instead of `"Pose Not Detected"`. -/
theorem solver_failure_returns_none (env : Env) (input : String)
    (bytes : List ℕ) (frame lms : ℕ)
    (hb : b64_stage env input = Except.ok bytes)
    (hi : env.imdecode bytes = some frame)
    (hf : env.faceLandmarks frame = some lms)
    (hp : env.solvePnP lms = Option.none) :
    process_frame env input = PyValue.none ∧
    (∀ s, PyValue.none ≠ PyValue.str s) ∧
    (∀ p y r : ℚ, PyValue.none ≠ PyValue.triple p y r) ∧
    isStr PyValue.none = false ∧
    step initState PyValue.none =
      StepResult.ok ⟨9, [Option.none], Option.none⟩ "Calculating Face Angles" := by
  refine ⟨?_, fun s h => PyValue.noConfusion h,
    fun p y r h => PyValue.noConfusion h, rfl, rfl⟩
  simp only [process_frame, hb, hi, hf, hp]

/-- Witness for C9. -/
theorem solver_failure_returns_none_witness :
    process_frame envPnPFail "x" = PyValue.none ∧
    (∀ s, PyValue.none ≠ PyValue.str s) ∧
    (∀ p y r : ℚ, PyValue.none ≠ PyValue.triple p y r) ∧
    isStr PyValue.none = false ∧
    step initState PyValue.none =
      StepResult.ok ⟨9, [Option.none], Option.none⟩ "Calculating Face Angles" :=
  solver_failure_returns_none envPnPFail "x" [0] 0 0 rfl rfl rfl rfl

/-! ### C6, C10: decode errors and data-URI stripping -/

/-- C6: a frame that fails base64 decoding (including the malformed
`"data:"`-prefix path) or image decoding yields a status string beginning
with `"Error:"`, the session state is bit-for-bit unchanged, and the loop
continues (no crash). -/
theorem decode_error_frame (env : Env) (input : String)
    (hfail : (∃ e, b64_stage env input = Except.error e) ∨
      (∃ bytes, b64_stage env input = Except.ok bytes ∧
        env.imdecode bytes = Option.none)) :
    ∃ s tail, process_frame env input = PyValue.str s ∧ s = "Error:" ++ tail ∧
      ∀ st : SessionState, step st (PyValue.str s) = StepResult.ok st s := by
  rcases hfail with ⟨e, he⟩ | ⟨bytes, hb, hi⟩
  · obtain ⟨e', he'⟩ := b64_stage_error_shape env input e he
    refine ⟨e, " Decoding Base64 failed - " ++ e', ?_, ?_, fun st => step_str st e⟩
    · simp only [process_frame, he]
    · rw [he', ← String.append_assoc]
      congr 1
  · refine ⟨"Error: Invalid frame", " Invalid frame", ?_, rfl,
      fun st => step_str st _⟩
    simp only [process_frame, hb, hi]

/-- Witness for C6: an environment whose base64 decoder always raises. -/
theorem decode_error_frame_witness :
    ∃ s tail, process_frame envB64Fail "x" = PyValue.str s ∧
      s = "Error:" ++ tail ∧
      ∀ st : SessionState, step st (PyValue.str s) = StepResult.ok st s :=
  decode_error_frame envB64Fail "x"
    (Or.inl ⟨"Error: Decoding Base64 failed - " ++ "Invalid base64-encoded string", rfl⟩)

/-- No comma in the character list means the split fails. -/
theorem splitFirst_eq_none (l : List Char) (h : ',' ∉ l) :
    splitFirst l = Option.none := by
  induction l with
  | nil => rfl
  | cons c rest ih =>
    simp only [splitFirst]
    rw [if_neg (fun hc => h (by rw [← hc]; exact List.mem_cons_self c rest)),
      ih (fun hm => h (List.mem_cons_of_mem c hm))]

/-- C10: the metadata prefix is stripped iff the payload begins with the
literal `"data:"`.  A `"data:"` payload with no comma fails inside the
`try` with a status beginning `"Error: Decoding Base64 failed"`; a
`"data:"` payload with a comma is cut after the first comma; any other
payload reaches the base64 decoder unmodified. -/
theorem data_uri_stripping (payload : String) :
    ("data:".data.isPrefixOf payload.data = true → (',' ∉ payload.data) →
      ∀ env : Env, process_frame env payload =
        PyValue.str ("Error: Decoding Base64 failed - " ++
          "not enough values to unpack (expected 2, got 1)")) ∧
    ("data:".data.isPrefixOf payload.data = false →
      stripped_input payload = Except.ok payload) ∧
    (∀ a b, "data:".data.isPrefixOf payload.data = true →
      splitFirst payload.data = some (a, b) →
      stripped_input payload = Except.ok (String.mk b)) := by
  refine ⟨?_, ?_, ?_⟩
  · intro h1 h2 env
    have hsplit := splitFirst_eq_none payload.data h2
    have hstrip : stripped_input payload =
        Except.error "not enough values to unpack (expected 2, got 1)" := by
      simp only [stripped_input, h1, hsplit]
      rfl
    simp only [process_frame, b64_stage, hstrip]
  · intro h1
    simp only [stripped_input, h1]
    rfl
  · intro a b h1 hsp
    simp only [stripped_input, h1, hsp]
    rfl

/-- Witness for C10 on both sides of the prefix test. -/
theorem data_uri_stripping_witness :
    process_frame envOk "data:abc" =
      PyValue.str ("Error: Decoding Base64 failed - " ++
        "not enough values to unpack (expected 2, got 1)") ∧
    stripped_input "hello" = Except.ok "hello" :=
  ⟨(data_uri_stripping "data:abc").1 (by decide) (by decide) envOk,
   (data_uri_stripping "hello").2.1 (by decide)⟩
